import Mathlib

/-!
Shallow embedding of the hierarchical fixed-width record decoder in
parse_rrc.py: the layout registry RECORD_MAPS, the line decoder parse_line,
the implied-decimal normalizer format_implied_decimal, and the record
assembler inside process_file. Python strings are modelled as List Char;
the input file is modelled as the list of its lines, each already free of
its trailing newline (the code removes it with rstrip before any use).
-/

set_option maxRecDepth 8192
set_option maxHeartbeats 1000000

/-- The characters removed by Python str.strip() with no argument. -/
def pySpace (c : Char) : Bool :=
  c = ' ' || c = '\t' || c = '\n' || c = '\x0b' || c = '\x0c' || c = '\r'

/-- Python s.strip(): drop leading and trailing whitespace. -/
def pyStrip (s : List Char) : List Char :=
  ((s.dropWhile pySpace).reverse.dropWhile pySpace).reverse

/-- Python c.isdigit() restricted to latin-1 text (the file is decoded as
latin-1, so no other code points can occur): the ASCII digits plus the
latin-1 superscript digits U+00B9, U+00B2, U+00B3. -/
def pyDigit (c : Char) : Bool :=
  c.isDigit || c = '¹' || c = '²' || c = '³'

/-- Python s.isdigit(): s is nonempty and every character is a digit. -/
def pyIsdigit (s : List Char) : Bool :=
  !s.isEmpty && s.all pyDigit

/-- Python s[a:b] for 0 ≤ a ≤ b: clamps to the length, never fails. -/
def pySlice (s : List Char) (a b : Nat) : List Char := (s.take b).drop a

/-- Python s.ljust(n): right-pad with spaces up to length n, never truncate. -/
def ljust (s : List Char) (n : Nat) : List Char :=
  s ++ List.replicate (n - s.length) ' '

def RECORD_LENGTH : Nat := 510

/-- One entry of a record layout: (field name, 0-based offset, length). -/
abbrev LayoutEntry := String × Nat × Nat

abbrev RecordMap := List LayoutEntry

/-- Record ID '01': DA-STATUS-ROOT. -/
def map01 : RecordMap := [
  ("RRC_TAPE_RECORD_ID", 0, 2),
  ("DA_STATUS_NUMBER", 2, 7),
  ("DA_STATUS_SEQUENCE_NUMBER", 9, 2),
  ("DA_COUNTY_CODE_ROOT", 11, 3),
  ("DA_LEASE_NAME_ROOT", 14, 32),
  ("DA_DISTRICT_ROOT", 46, 2),
  ("DA_OPERATOR_NUMBER_ROOT", 48, 6),
  ("DA_DATE_APP_RECEIVED", 58, 8),
  ("DA_OPERATOR_NAME", 66, 32),
  ("DA_STATUS_OF_APP_FLAG", 100, 1),
  ("DA_PERMIT_ROOT", 112, 7),
  ("DA_ISSUE_DATE", 119, 8),
  ("DA_WELL_NUMBER_ROOT", 156, 6),
  ("DA_ECAP_FILING_FLAG", 182, 1)]

/-- Record ID '02': DA-PERMIT-MASTER. -/
def map02 : RecordMap := [
  ("DA_PERMIT_NUMBER", 4, 7),
  ("DA_PERMIT_SEQUENCE_NUMBER", 11, 2),
  ("DA_PERMIT_COUNTY_CODE", 13, 3),
  ("DA_PERMIT_LEASE_NAME", 16, 32),
  ("DA_PERMIT_DISTRICT", 48, 2),
  ("DA_PERMIT_WELL_NUMBER", 50, 6),
  ("DA_PERMIT_TOTAL_DEPTH", 56, 5),
  ("DA_PERMIT_OPERATOR_NUMBER", 61, 6),
  ("DA_TYPE_APPLICATION", 67, 2),
  ("DA_RECEIVED_DATE", 123, 8),
  ("DA_PERMIT_ISSUED_DATE", 131, 8),
  ("DA_WELL_STATUS", 171, 1),
  ("DA_RULE_37_CASE_NUMBER", 230, 7),
  ("DA_OLD_SURFACE_LOCATION", 245, 52),
  ("DA_SURFACE_ACRES", 327, 8),
  ("DA_SURFACE_MILES_FROM_CITY", 335, 6),
  ("DA_SURFACE_DIRECTION_FROM_CITY", 341, 6),
  ("DA_SURFACE_NEAREST_CITY", 347, 13),
  ("DA_NEAREST_WELL", 444, 28),
  ("DA_DIRECTIONAL_WELL_FLAG", 483, 1),
  ("DA_HORIZONTAL_WELL_FLAG", 495, 1),
  ("API_NUMBER", 504, 8)]

/-- Record ID '03': DA-FIELD-SEGMENT. -/
def map03 : RecordMap := [
  ("DA_FIELD_NUMBER", 2, 8),
  ("DA_FIELD_APPLICATION_WELL_CODE", 10, 1),
  ("DA_FIELD_COMPLETION_WELL_CODE", 11, 1),
  ("DA_FIELD_COMPLETION_DATE", 22, 8)]

/-- Record ID '06': DA-CAN-RESTR-SEGMENT. -/
def map06 : RecordMap := [
  ("DA_CAN_RESTR_KEY", 2, 2),
  ("DA_CAN_RESTR_TYPE", 4, 2),
  ("DA_CAN_RESTR_REMARK", 6, 35),
  ("DA_CAN_RESTR_FLAG", 76, 1)]

/-- Record ID '08': DA-FREE-RESTR-SEGMENT. -/
def map08 : RecordMap := [
  ("DA_FREE_RESTR_KEY", 2, 2),
  ("DA_FREE_RESTR_REMARK", 6, 70),
  ("DA_FREE_RESTR_FLAG", 76, 1)]

/-- Record ID '14': GIS SURFACE LOCATION. -/
def map14 : RecordMap := [
  ("SURFACE_LONGITUDE", 3, 12),
  ("SURFACE_LATITUDE", 15, 12)]

/-- Record ID '15': GIS BOTTOM HOLE LOCATION. -/
def map15 : RecordMap := [
  ("BH_LONGITUDE", 3, 12),
  ("BH_LATITUDE", 15, 12)]

/-- The layout registry: RECORD_MAPS.get(record_id) of the source, as a
function from the 2-character tag to an optional layout. -/
def RECORD_MAPS (tag : List Char) : Option RecordMap :=
  if tag = ['0', '1'] then some map01
  else if tag = ['0', '2'] then some map02
  else if tag = ['0', '3'] then some map03
  else if tag = ['0', '6'] then some map06
  else if tag = ['0', '8'] then some map08
  else if tag = ['1', '4'] then some map14
  else if tag = ['1', '5'] then some map15
  else none

/-- A decoded record: a Python dict from field name to string value,
modelled as an insertion-ordered association list with unique keys. -/
abbrev Dict := List (String × List Char)

/-- Python d[k] (lookup); none when the key is absent. -/
def dictGet (d : Dict) (k : String) : Option (List Char) :=
  match d with
  | [] => none
  | (k', v) :: t => if k' = k then some v else dictGet t k

/-- Python d[k] = v: overwrite in place when k is present (dict keys are
unique, so at most one entry matches), append otherwise. -/
def setItem (d : Dict) (k : String) (v : List Char) : Dict :=
  match d with
  | [] => [(k, v)]
  | (k', v') :: t => if k' = k then (k', v) :: t else (k', v') :: setItem t k v

/-- Python d.update(u): assign every binding of u into d in order. -/
def dictUpdate (d u : Dict) : Dict :=
  u.foldl (fun acc p => setItem acc p.1 p.2) d

/-- parse_line: extract and strip each layout field of a line. -/
def parse_line (line : List Char) (record_map : RecordMap) : Dict :=
  record_map.map (fun e => (e.1, pyStrip (pySlice line e.2.1 (e.2.1 + e.2.2))))

/-- format_implied_decimal: turn a digit string with an implied decimal
point into an explicit decimal string, passing non-numeric input through. -/
def format_implied_decimal (value : List Char) (integer_part_len : Nat) : List Char :=
  if value.isEmpty || !pyIsdigit ((value.filter (fun c => c ≠ '-')).filter (fun c => c ≠ '.')) then
    value
  else
    let core := if value.head? = some '-' then value.drop 1 else value
    let formatted :=
      if core.length ≤ integer_part_len then core
      else core.take integer_part_len ++ '.' :: core.drop integer_part_len
    if value.head? = some '-' then '-' :: formatted else formatted

/-- A defaultdict(int) keyed by record tag, insertion ordered. -/
abbrev TagCounts := List (List Char × Nat)

/-- record_counts[tag] with the defaultdict default of 0. -/
def countGet (c : TagCounts) (k : List Char) : Nat :=
  match c with
  | [] => 0
  | (k', n) :: t => if k' = k then n else countGet t k

/-- record_counts[tag] += 1. -/
def bump (c : TagCounts) (k : List Char) : TagCounts :=
  match c with
  | [] => [(k, 1)]
  | (k', n) :: t => if k' = k then (k', n + 1) :: t else (k', n) :: bump t k

/-- The mutable state of process_file's reading loop. -/
structure PState where
  permits : List Dict
  all_fields : List Dict
  all_restrictions : List Dict
  current_permit_data : Dict
  record_counts : TagCounts
deriving DecidableEq

def initState : PState := ⟨[], [], [], [], []⟩

/-- The body of process_file's loop for one line (the line carries no
trailing newline, matching rstrip). current_permit_data is always a dict
decoded from map01, which defines DA_STATUS_NUMBER, so the .getD [] default
standing in for Python's None is never reached from reachable states. -/
def step (s : PState) (line : List Char) : PState :=
  if (pyStrip line).isEmpty then s
  else
    let l := ljust line RECORD_LENGTH
    let record_id := l.take 2
    let s := { s with record_counts := bump s.record_counts record_id }
    if record_id = ['0', '1'] then
      let s :=
        if !s.current_permit_data.isEmpty then
          { s with permits := s.permits ++ [s.current_permit_data] }
        else s
      { s with current_permit_data := parse_line l map01 }
    else if !s.current_permit_data.isEmpty then
      match RECORD_MAPS record_id with
      | none => s
      | some record_map =>
        if record_id = ['0', '2'] then
          let pmd := parse_line l record_map
          let pmd := setItem pmd "DA_SURFACE_ACRES"
            (format_implied_decimal ((dictGet pmd "DA_SURFACE_ACRES").getD []) 6)
          let pmd := setItem pmd "DA_SURFACE_MILES_FROM_CITY"
            (format_implied_decimal ((dictGet pmd "DA_SURFACE_MILES_FROM_CITY").getD []) 4)
          { s with current_permit_data := dictUpdate s.current_permit_data pmd }
        else if record_id = ['0', '3'] then
          let fd := parse_line l record_map
          let fd := setItem fd "PARENT_STATUS_NUMBER"
            ((dictGet s.current_permit_data "DA_STATUS_NUMBER").getD [])
          { s with all_fields := s.all_fields ++ [fd] }
        else if record_id = ['0', '6'] ∨ record_id = ['0', '8'] then
          let rd := parse_line l record_map
          let rd := setItem rd "PARENT_STATUS_NUMBER"
            ((dictGet s.current_permit_data "DA_STATUS_NUMBER").getD [])
          let rd := setItem rd "RESTRICTION_TYPE"
            (if record_id = ['0', '6'] then "CANNED".toList else "FREE_FORM".toList)
          { s with all_restrictions := s.all_restrictions ++ [rd] }
        else if record_id = ['1', '4'] then
          let gd := parse_line l record_map
          let lat := format_implied_decimal ((dictGet gd "SURFACE_LATITUDE").getD []) 2
          let lon := format_implied_decimal ((dictGet gd "SURFACE_LONGITUDE").getD []) 3
          let cur := setItem (setItem s.current_permit_data "SURFACE_LATITUDE" lat) "SURFACE_LONGITUDE" lon
          { s with current_permit_data := cur }
        else if record_id = ['1', '5'] then
          let gd := parse_line l record_map
          let lat := format_implied_decimal ((dictGet gd "BH_LATITUDE").getD []) 2
          let lon := format_implied_decimal ((dictGet gd "BH_LONGITUDE").getD []) 3
          let cur := setItem (setItem s.current_permit_data "BH_LATITUDE" lat) "BH_LONGITUDE" lon
          { s with current_permit_data := cur }
        else s
    else s

/-- A 510-character line whose last six characters are the letters A-F,
exercising the API_NUMBER entry of map02 whose offset+length is 512. -/
def apiLine : List Char := List.replicate 504 'x' ++ "ABCDEF".toList

/-- A line is parent-opening when it is non-blank and its (padded) tag is
'01'. -/
def opens01 (line : List Char) : Bool :=
  !(pyStrip line).isEmpty && decide ((ljust line RECORD_LENGTH).take 2 = ['0', '1'])

/-- The dict merged into the current parent by a '02' line: the decoded
map02 fields with the two implied-decimal fields normalized in place. -/
def permit_master_update (l : List Char) : Dict :=
  let pmd := parse_line l map02
  let pmd := setItem pmd "DA_SURFACE_ACRES"
    (format_implied_decimal ((dictGet pmd "DA_SURFACE_ACRES").getD []) 6)
  setItem pmd "DA_SURFACE_MILES_FROM_CITY"
    (format_implied_decimal ((dictGet pmd "DA_SURFACE_MILES_FROM_CITY").getD []) 4)

/-- The whole reading loop of process_file followed by the end-of-input
finalization of the pending parent. -/
def process_lines (lines : List (List Char)) : PState :=
  let s := lines.foldl step initState
  if !s.current_permit_data.isEmpty then
    { s with permits := s.permits ++ [s.current_permit_data] }
  else s

/-! ## Basic facts about the normalizer -/

lemma filter_dashdot_of_digits (ds : List Char) (h : ∀ c ∈ ds, c.isDigit) :
    (ds.filter (fun c => c ≠ '-')).filter (fun c => c ≠ '.') = ds := by
  have h1 : ds.filter (fun c => c ≠ '-') = ds := by
    apply List.filter_eq_self.mpr
    intro a ha
    have hd := h a ha
    simp only [ne_eq, decide_eq_true_eq]
    intro hEq
    rw [hEq] at hd
    exact absurd hd (by decide)
  rw [h1]
  apply List.filter_eq_self.mpr
  intro a ha
  have hd := h a ha
  simp only [ne_eq, decide_eq_true_eq]
  intro hEq
  rw [hEq] at hd
  exact absurd hd (by decide)

lemma pyIsdigit_of_digits (ds : List Char) (hne : ds ≠ []) (h : ∀ c ∈ ds, c.isDigit) :
    pyIsdigit ds = true := by
  simp only [pyIsdigit, Bool.and_eq_true, Bool.not_eq_true', List.isEmpty_eq_false,
    List.all_eq_true]
  exact ⟨hne, fun c hc => by simp [pyDigit, h c hc]⟩

/-- C1: on an optional leading minus followed by a nonempty run of ASCII
digits, format_implied_decimal keeps the digits unchanged when there are at
most integer_part_len of them, and otherwise inserts a decimal point after
the first integer_part_len digits; the minus sign is re-prepended exactly
when present in the input. -/
theorem spec_C1_normalize_numeric (sign : Bool) (ds : List Char) (n : Nat)
    (hne : ds ≠ []) (hdig : ∀ c ∈ ds, c.isDigit) :
    format_implied_decimal ((if sign then ['-'] else []) ++ ds) n =
      (if sign then ['-'] else []) ++
        (if ds.length ≤ n then ds else ds.take n ++ '.' :: ds.drop n) := by
  have hfilter := filter_dashdot_of_digits ds hdig
  have hisdig := pyIsdigit_of_digits ds hne hdig
  obtain ⟨c, t, rfl⟩ := List.exists_cons_of_ne_nil hne
  have hcd : c.isDigit := hdig c (List.mem_cons_self c t)
  have hcne : c ≠ '-' := by
    intro hEq
    rw [hEq] at hcd
    exact absurd hcd (by decide)
  cases sign with
  | false =>
    simp only [Bool.false_eq_true, if_false, List.nil_append]
    unfold format_implied_decimal
    have hG : ((c :: t).isEmpty
        || !pyIsdigit (((c :: t).filter (fun c => c ≠ '-')).filter (fun c => c ≠ '.'))) = false := by
      rw [hfilter, hisdig]
      rfl
    rw [if_neg (by rw [hG]; simp)]
    have hh : ¬ ((c :: t).head? = some '-') := by simp [hcne]
    simp only [if_neg hh]
  | true =>
    simp only [if_true, List.cons_append, List.nil_append]
    unfold format_implied_decimal
    have hguard : (('-' :: c :: t).filter (fun c => c ≠ '-')).filter (fun c => c ≠ '.') =
        c :: t := by
      rw [List.filter_cons_of_neg (by simp), hfilter]
    have hG : (('-' :: c :: t).isEmpty
        || !pyIsdigit ((('-' :: c :: t).filter (fun c => c ≠ '-')).filter (fun c => c ≠ '.'))) = false := by
      rw [hguard, hisdig]
      rfl
    rw [if_neg (by rw [hG]; simp)]
    have hh : ('-' :: c :: t).head? = some '-' := rfl
    simp only [if_pos hh, List.drop_succ_cons, List.drop_zero]

/-- Witness for C1 at sign = true, digits "12345", n = 3. -/
theorem spec_C1_normalize_numeric_witness :
    format_implied_decimal ('-' :: "12345".toList) 3 =
      '-' :: ("123".toList ++ '.' :: "45".toList) := by
  have h := spec_C1_normalize_numeric true "12345".toList 3 (by decide)
    (by decide)
  simpa using h

/-- C2 counterexample: "1234567.8" contains a character other than an
optional leading minus and ASCII digits (an embedded dot), yet
format_implied_decimal does not return it unchanged. -/
theorem spec_C2_counterexample :
    ('.' ∈ "1234567.8".toList) ∧
      format_implied_decimal "1234567.8".toList 6 ≠ "1234567.8".toList := by
  decide

/-- C2 (amended): format_implied_decimal returns raw unchanged whenever raw
is empty, or contains a character that is neither a digit nor one of the
two ignored characters minus and dot, or consists solely of minus and dot
characters; an input whose characters apart from minus and dot are all
digits is instead processed even when a dot is embedded or a minus is not
leading. -/
theorem spec_C2_passthrough (raw : List Char) (n : Nat)
    (h : raw = [] ∨ (∃ c ∈ raw, pyDigit c = false ∧ c ≠ '-' ∧ c ≠ '.') ∨
      ∀ c ∈ raw, c = '-' ∨ c = '.') :
    format_implied_decimal raw n = raw := by
  rcases h with rfl | ⟨c, hc, hcd, hcm, hcp⟩ | hall
  · rfl
  · unfold format_implied_decimal
    have hmem : c ∈ (raw.filter (fun c => c ≠ '-')).filter (fun c => c ≠ '.') := by
      simp only [List.mem_filter, ne_eq, decide_eq_true_eq]
      exact ⟨⟨hc, hcm⟩, hcp⟩
    have hbad : pyIsdigit ((raw.filter (fun c => c ≠ '-')).filter (fun c => c ≠ '.')) = false := by
      simp only [pyIsdigit, Bool.and_eq_false_iff, Bool.not_eq_true', List.all_eq_false]
      exact Or.inr ⟨c, hmem, by simp [hcd]⟩
    rw [if_pos (by rw [hbad]; simp)]
  · unfold format_implied_decimal
    have hnil : raw.filter (fun c => c ≠ '-') = raw.filter (fun c => c = '.') := by
      apply List.filter_congr
      intro x hx
      rcases hall x hx with rfl | rfl
      · simp
      · simp
    have hnil2 : (raw.filter (fun c => c ≠ '-')).filter (fun c => c ≠ '.') = [] := by
      rw [hnil, List.filter_filter]
      apply List.filter_eq_nil_iff.mpr
      intro a ha
      simp
    rw [if_pos (by rw [hnil2]; simp [pyIsdigit])]

/-- Witness for C2 (amended) at raw = "ABC", n = 6. -/
theorem spec_C2_passthrough_witness :
    format_implied_decimal "ABC".toList 6 = "ABC".toList :=
  spec_C2_passthrough "ABC".toList 6 (by decide)

/-- C3 counterexample: the spec vector normalize("00150000", 6) ==
"001.50000" fails on the code, which inserts the point after the first six
digits. -/
theorem spec_C3_counterexample :
    format_implied_decimal "00150000".toList 6 ≠ "001.50000".toList := by
  decide

/-- C3 (amended): the code's actual values on the spec's four vectors: the
point is inserted after integer_digit_count digits, so "00150000" maps to
"001500.00" and "-0097500" to "-009750.0"; the two pass-through vectors
hold as stated. -/
theorem spec_C3_vectors :
    format_implied_decimal "00150000".toList 6 = "001500.00".toList ∧
    format_implied_decimal "-0097500".toList 6 = "-009750.0".toList ∧
    format_implied_decimal "ABC".toList 6 = "ABC".toList ∧
    format_implied_decimal "".toList 6 = "".toList := by
  decide

/-- C4 counterexample: for the real layout entry ("API_NUMBER", 504, 8) of
map02, the padded line is shorter than offset+length, yet the decoded field
is the truncated substring "ABCDEF", not the empty string. -/
theorem spec_C4_counterexample :
    ("API_NUMBER", 504, 8) ∈ map02 ∧
    (ljust apiLine RECORD_LENGTH).length < 504 + 8 ∧
    ("API_NUMBER", "ABCDEF".toList) ∈ parse_line (ljust apiLine RECORD_LENGTH) map02 ∧
    "ABCDEF".toList ≠ ([] : List Char) := by
  refine ⟨by decide, by decide, ?_, by decide⟩
  have hm : ("API_NUMBER", 504, 8) ∈ map02 := by decide
  have hv : pyStrip (pySlice (ljust apiLine RECORD_LENGTH) 504 (504 + 8)) = "ABCDEF".toList := by
    decide
  have := List.mem_map_of_mem
    (fun e : LayoutEntry =>
      (e.1, pyStrip (pySlice (ljust apiLine RECORD_LENGTH) e.2.1 (e.2.1 + e.2.2)))) hm
  rw [parse_line]
  simpa [hv] using this

/-- C4 (amended): decoding is total: with the line right-padded to 510,
each layout entry (name, offset, length) binds name to the
whitespace-stripped substring [offset, min(offset+length, padded length));
the value is the empty string whenever the padded length is at most the
offset, and is a truncated substring (not necessarily empty) when only
offset+length overshoots. -/
theorem spec_C4_decode_total (line : List Char) (m : RecordMap) (name : String) (o l : Nat)
    (h : (name, o, l) ∈ m) :
    ∃ v, (name, v) ∈ parse_line (ljust line RECORD_LENGTH) m ∧
      v = pyStrip (((ljust line RECORD_LENGTH).take
            (min (o + l) (ljust line RECORD_LENGTH).length)).drop o) ∧
      ((ljust line RECORD_LENGTH).length ≤ o → v = []) := by
  refine ⟨pyStrip (pySlice (ljust line RECORD_LENGTH) o (o + l)), ?_, ?_, ?_⟩
  · exact List.mem_map_of_mem _ h
  · unfold pySlice
    have : (ljust line RECORD_LENGTH).take (o + l) =
        (ljust line RECORD_LENGTH).take (min (o + l) (ljust line RECORD_LENGTH).length) := by
      apply List.take_eq_take.mpr
      rw [min_assoc, min_self]
    rw [this]
  · intro hlen
    unfold pySlice
    have hlt : ((ljust line RECORD_LENGTH).take (o + l)).length ≤ o := by
      rw [List.length_take]
      exact le_trans (min_le_right _ _) hlen
    rw [List.drop_eq_nil_of_le hlt]
    rfl

/-- Witness for C4 (amended): the first entry of map01 on the empty line
decodes to the stripped all-blank substring, which is empty. -/
theorem spec_C4_decode_total_witness :
    ∃ v, ("RRC_TAPE_RECORD_ID", v) ∈ parse_line (ljust [] RECORD_LENGTH) map01 ∧
      v = pyStrip (((ljust [] RECORD_LENGTH).take
            (min (0 + 2) (ljust [] RECORD_LENGTH).length)).drop 0) ∧
      ((ljust [] RECORD_LENGTH).length ≤ 0 → v = []) :=
  spec_C4_decode_total [] map01 "RRC_TAPE_RECORD_ID" 0 2 (by decide)

/-! ## Dictionary and stripping lemmas -/

lemma dictGet_setItem_self (d : Dict) (k : String) (v : List Char) :
    dictGet (setItem d k v) k = some v := by
  induction d with
  | nil => simp [setItem, dictGet]
  | cons p t ih =>
    obtain ⟨k', v'⟩ := p
    by_cases h : k' = k
    · simp [setItem, dictGet, h]
    · simp [setItem, dictGet, h, ih]

lemma dictGet_setItem_ne (d : Dict) (k' k : String) (v : List Char) (h : k' ≠ k) :
    dictGet (setItem d k' v) k = dictGet d k := by
  induction d with
  | nil => simp [setItem, dictGet, h]
  | cons p t ih =>
    obtain ⟨k'', v''⟩ := p
    by_cases h2 : k'' = k'
    · subst h2
      simp [setItem, dictGet, h]
    · simp [setItem, dictGet, h2, ih]

lemma setItem_ne_nil (d : Dict) (k : String) (v : List Char) :
    (setItem d k v).isEmpty = false := by
  cases d with
  | nil => simp [setItem]
  | cons p t =>
    obtain ⟨k', v'⟩ := p
    by_cases h : k' = k <;> simp [setItem, h]

lemma mem_keys_setItem (d : Dict) (k x : String) (v : List Char)
    (hx : x ∈ (setItem d k v).map Prod.fst) : x ∈ d.map Prod.fst ∨ x = k := by
  induction d with
  | nil =>
    simp [setItem] at hx
    exact Or.inr hx
  | cons p t ih =>
    obtain ⟨k', v'⟩ := p
    by_cases h : k' = k
    · simp [setItem, h] at hx
      rcases hx with rfl | hx
      · exact Or.inr rfl
      · exact Or.inl (by simp [hx])
    · simp [setItem, h] at hx
      rcases hx with rfl | hx
      · exact Or.inl (by simp)
      · have hx2 : x ∈ (setItem t k v).map Prod.fst := by simpa using hx
        rcases ih hx2 with hl | hr
        · exact Or.inl (by simp [hl])
        · exact Or.inr hr

lemma dictGet_dictUpdate_not_mem (d u : Dict) (k : String)
    (h : k ∉ u.map Prod.fst) : dictGet (dictUpdate d u) k = dictGet d k := by
  induction u generalizing d with
  | nil => rfl
  | cons p t ih =>
    obtain ⟨k', v'⟩ := p
    have hk' : k' ≠ k := by
      intro hEq
      exact h (by simp [hEq])
    have ht : k ∉ t.map Prod.fst := fun hm => h (by simp [hm])
    show dictGet (dictUpdate (setItem d k' v') t) k = dictGet d k
    rw [ih (setItem d k' v') ht, dictGet_setItem_ne d k' k v' hk']

lemma dictUpdate_isEmpty (d u : Dict) :
    (dictUpdate d u).isEmpty = (d.isEmpty && u.isEmpty) := by
  cases u with
  | nil => simp [dictUpdate]
  | cons p t =>
    induction t generalizing d p with
    | nil =>
      obtain ⟨k, v⟩ := p
      simp [dictUpdate, setItem_ne_nil]
    | cons q t ih =>
      obtain ⟨k, v⟩ := p
      show (dictUpdate (setItem d k v) (q :: t)).isEmpty = _
      rw [ih (setItem d k v) q]
      simp [setItem_ne_nil]

lemma keys_parse_line (line : List Char) (m : RecordMap) :
    (parse_line line m).map Prod.fst = m.map Prod.fst := by
  induction m with
  | nil => rfl
  | cons e t ih => simp [parse_line] at ih ⊢

lemma parse_line_isEmpty (line : List Char) (m : RecordMap) :
    (parse_line line m).isEmpty = m.isEmpty := by
  cases m <;> simp [parse_line]

lemma pyStrip_cons_nonspace (a : Char) (r : List Char) (h : pySpace a = false) :
    (pyStrip (a :: r)).isEmpty = false := by
  unfold pyStrip
  rw [List.dropWhile_cons]
  simp only [h, Bool.false_eq_true, if_false]
  rw [List.isEmpty_eq_false]
  intro hEq
  have h2 : (a :: r).reverse.dropWhile pySpace = [] := by
    simpa using congrArg List.reverse hEq
  have := List.dropWhile_eq_nil_iff.mp h2 a (by simp)
  rw [h] at this
  exact absurd this (by decide)

lemma take_two_ljust (a b : Char) (r : List Char) (n : Nat) :
    (ljust (a :: b :: r) n).take 2 = [a, b] := by
  simp [ljust]

/-! ## Step characterization, one lemma per dispatch branch -/

lemma step_blank (s : PState) (line : List Char) (hb : (pyStrip line).isEmpty = true) :
    step s line = s := by
  simp [step, hb]

lemma step_open (s : PState) (line : List Char)
    (hb : (pyStrip line).isEmpty = false)
    (h01 : (ljust line RECORD_LENGTH).take 2 = ['0', '1']) :
    step s line =
      { permits := if s.current_permit_data.isEmpty then s.permits
          else s.permits ++ [s.current_permit_data],
        all_fields := s.all_fields,
        all_restrictions := s.all_restrictions,
        current_permit_data := parse_line (ljust line RECORD_LENGTH) map01,
        record_counts := bump s.record_counts ['0', '1'] } := by
  obtain ⟨p, f, r, c, rc⟩ := s
  unfold step
  rw [if_neg (by simp [hb])]
  simp only [h01]
  by_cases hc : c.isEmpty <;> simp [hc]

lemma step_skip_nocurrent (s : PState) (line : List Char)
    (hb : (pyStrip line).isEmpty = false)
    (h01 : (ljust line RECORD_LENGTH).take 2 ≠ ['0', '1'])
    (hc : s.current_permit_data.isEmpty = true) :
    step s line =
      { s with record_counts := bump s.record_counts ((ljust line RECORD_LENGTH).take 2) } := by
  obtain ⟨p, f, r, c, rc⟩ := s
  unfold step
  rw [if_neg (by simp [hb])]
  simp only [if_neg h01]
  simp at hc
  simp [hc]

lemma step_merge02 (s : PState) (line : List Char)
    (hb : (pyStrip line).isEmpty = false)
    (h02 : (ljust line RECORD_LENGTH).take 2 = ['0', '2'])
    (hc : s.current_permit_data.isEmpty = false) :
    step s line =
      { s with
        current_permit_data := dictUpdate s.current_permit_data
          (permit_master_update (ljust line RECORD_LENGTH)),
        record_counts := bump s.record_counts ['0', '2'] } := by
  obtain ⟨p, f, r, c, rc⟩ := s
  unfold step
  rw [if_neg (by simp [hb])]
  simp only [h02]
  simp at hc
  simp [hc, RECORD_MAPS, permit_master_update]

lemma step_child03 (s : PState) (line : List Char)
    (hb : (pyStrip line).isEmpty = false)
    (h03 : (ljust line RECORD_LENGTH).take 2 = ['0', '3'])
    (hc : s.current_permit_data.isEmpty = false) :
    step s line =
      { s with
        all_fields := s.all_fields ++
          [setItem (parse_line (ljust line RECORD_LENGTH) map03) "PARENT_STATUS_NUMBER"
            ((dictGet s.current_permit_data "DA_STATUS_NUMBER").getD [])],
        record_counts := bump s.record_counts ['0', '3'] } := by
  obtain ⟨p, f, r, c, rc⟩ := s
  unfold step
  rw [if_neg (by simp [hb])]
  simp only [h03]
  simp at hc
  simp [hc, RECORD_MAPS]

lemma step_restr06 (s : PState) (line : List Char)
    (hb : (pyStrip line).isEmpty = false)
    (h06 : (ljust line RECORD_LENGTH).take 2 = ['0', '6'])
    (hc : s.current_permit_data.isEmpty = false) :
    step s line =
      { s with
        all_restrictions := s.all_restrictions ++
          [setItem
            (setItem (parse_line (ljust line RECORD_LENGTH) map06) "PARENT_STATUS_NUMBER"
              ((dictGet s.current_permit_data "DA_STATUS_NUMBER").getD []))
            "RESTRICTION_TYPE" "CANNED".toList],
        record_counts := bump s.record_counts ['0', '6'] } := by
  obtain ⟨p, f, r, c, rc⟩ := s
  unfold step
  rw [if_neg (by simp [hb])]
  simp only [h06]
  simp at hc
  simp [hc, RECORD_MAPS]

lemma step_restr08 (s : PState) (line : List Char)
    (hb : (pyStrip line).isEmpty = false)
    (h08 : (ljust line RECORD_LENGTH).take 2 = ['0', '8'])
    (hc : s.current_permit_data.isEmpty = false) :
    step s line =
      { s with
        all_restrictions := s.all_restrictions ++
          [setItem
            (setItem (parse_line (ljust line RECORD_LENGTH) map08) "PARENT_STATUS_NUMBER"
              ((dictGet s.current_permit_data "DA_STATUS_NUMBER").getD []))
            "RESTRICTION_TYPE" "FREE_FORM".toList],
        record_counts := bump s.record_counts ['0', '8'] } := by
  obtain ⟨p, f, r, c, rc⟩ := s
  unfold step
  rw [if_neg (by simp [hb])]
  simp only [h08]
  simp at hc
  simp [hc, RECORD_MAPS]

lemma step_gis14 (s : PState) (line : List Char)
    (hb : (pyStrip line).isEmpty = false)
    (h14 : (ljust line RECORD_LENGTH).take 2 = ['1', '4'])
    (hc : s.current_permit_data.isEmpty = false) :
    step s line =
      { s with
        current_permit_data := setItem
          (setItem s.current_permit_data "SURFACE_LATITUDE"
            (format_implied_decimal
              ((dictGet (parse_line (ljust line RECORD_LENGTH) map14) "SURFACE_LATITUDE").getD []) 2))
          "SURFACE_LONGITUDE"
          (format_implied_decimal
            ((dictGet (parse_line (ljust line RECORD_LENGTH) map14) "SURFACE_LONGITUDE").getD []) 3),
        record_counts := bump s.record_counts ['1', '4'] } := by
  obtain ⟨p, f, r, c, rc⟩ := s
  unfold step
  rw [if_neg (by simp [hb])]
  simp only [h14]
  simp at hc
  simp [hc, RECORD_MAPS]

lemma step_gis15 (s : PState) (line : List Char)
    (hb : (pyStrip line).isEmpty = false)
    (h15 : (ljust line RECORD_LENGTH).take 2 = ['1', '5'])
    (hc : s.current_permit_data.isEmpty = false) :
    step s line =
      { s with
        current_permit_data := setItem
          (setItem s.current_permit_data "BH_LATITUDE"
            (format_implied_decimal
              ((dictGet (parse_line (ljust line RECORD_LENGTH) map15) "BH_LATITUDE").getD []) 2))
          "BH_LONGITUDE"
          (format_implied_decimal
            ((dictGet (parse_line (ljust line RECORD_LENGTH) map15) "BH_LONGITUDE").getD []) 3),
        record_counts := bump s.record_counts ['1', '5'] } := by
  obtain ⟨p, f, r, c, rc⟩ := s
  unfold step
  rw [if_neg (by simp [hb])]
  simp only [h15]
  simp at hc
  simp [hc, RECORD_MAPS]

lemma step_unknown (s : PState) (line : List Char)
    (hb : (pyStrip line).isEmpty = false)
    (hm : RECORD_MAPS ((ljust line RECORD_LENGTH).take 2) = none) :
    step s line =
      { s with record_counts := bump s.record_counts ((ljust line RECORD_LENGTH).take 2) } := by
  have h01 : (ljust line RECORD_LENGTH).take 2 ≠ ['0', '1'] := by
    intro hEq
    rw [hEq] at hm
    simp [RECORD_MAPS] at hm
  by_cases hc : s.current_permit_data.isEmpty
  · exact step_skip_nocurrent s line hb h01 hc
  · obtain ⟨p, f, r, c, rc⟩ := s
    unfold step
    rw [if_neg (by simp [hb])]
    simp only [if_neg h01]
    simp only [hm]
    simp at hc
    simp [hc]

lemma status_notin_pmd02 (l : List Char) (v1 v2 : List Char) :
    "DA_STATUS_NUMBER" ∉
      (setItem (setItem (parse_line l map02) "DA_SURFACE_ACRES" v1)
        "DA_SURFACE_MILES_FROM_CITY" v2).map Prod.fst := by
  intro hmem
  rcases mem_keys_setItem _ _ _ _ hmem with h | h
  · rcases mem_keys_setItem _ _ _ _ h with h2 | h2
    · rw [keys_parse_line] at h2
      revert h2
      decide
    · exact absurd h2 (by decide)
  · exact absurd h (by decide)

lemma status_notin_pmu (l : List Char) :
    "DA_STATUS_NUMBER" ∉ (permit_master_update l).map Prod.fst := by
  unfold permit_master_update
  simp only []
  exact status_notin_pmd02 _ _ _

lemma step_non01 (s : PState) (line : List Char)
    (hb : (pyStrip line).isEmpty = false)
    (h01 : (ljust line RECORD_LENGTH).take 2 ≠ ['0', '1']) :
    (step s line).permits = s.permits ∧
    (step s line).current_permit_data.isEmpty = s.current_permit_data.isEmpty ∧
    dictGet (step s line).current_permit_data "DA_STATUS_NUMBER" =
      dictGet s.current_permit_data "DA_STATUS_NUMBER" := by
  by_cases hc : s.current_permit_data.isEmpty
  · rw [step_skip_nocurrent s line hb h01 hc]
    exact ⟨rfl, rfl, rfl⟩
  · rw [Bool.not_eq_true] at hc
    by_cases h02 : (ljust line RECORD_LENGTH).take 2 = ['0', '2']
    · rw [step_merge02 s line hb h02 hc]
      refine ⟨rfl, ?_, ?_⟩
      · simp only []
        rw [dictUpdate_isEmpty, hc]
        rfl
      · simp only []
        rw [dictGet_dictUpdate_not_mem]
        exact status_notin_pmu _
    by_cases h03 : (ljust line RECORD_LENGTH).take 2 = ['0', '3']
    · rw [step_child03 s line hb h03 hc]
      exact ⟨rfl, rfl, rfl⟩
    by_cases h06 : (ljust line RECORD_LENGTH).take 2 = ['0', '6']
    · rw [step_restr06 s line hb h06 hc]
      exact ⟨rfl, rfl, rfl⟩
    by_cases h08 : (ljust line RECORD_LENGTH).take 2 = ['0', '8']
    · rw [step_restr08 s line hb h08 hc]
      exact ⟨rfl, rfl, rfl⟩
    by_cases h14 : (ljust line RECORD_LENGTH).take 2 = ['1', '4']
    · rw [step_gis14 s line hb h14 hc]
      refine ⟨rfl, ?_, ?_⟩
      · rw [setItem_ne_nil, hc]
      · rw [dictGet_setItem_ne _ _ _ _ (by decide), dictGet_setItem_ne _ _ _ _ (by decide)]
    by_cases h15 : (ljust line RECORD_LENGTH).take 2 = ['1', '5']
    · rw [step_gis15 s line hb h15 hc]
      refine ⟨rfl, ?_, ?_⟩
      · rw [setItem_ne_nil, hc]
      · rw [dictGet_setItem_ne _ _ _ _ (by decide), dictGet_setItem_ne _ _ _ _ (by decide)]
    have hm : RECORD_MAPS ((ljust line RECORD_LENGTH).take 2) = none := by
      simp [RECORD_MAPS, h01, h02, h03, h06, h08, h14, h15]
    rw [step_unknown s line hb hm]
    exact ⟨rfl, rfl, rfl⟩

lemma step_parent_count (s : PState) (line : List Char) :
    (step s line).permits.length +
        (if (step s line).current_permit_data.isEmpty then 0 else 1) =
      s.permits.length + (if s.current_permit_data.isEmpty then 0 else 1) +
        (if opens01 line then 1 else 0) := by
  by_cases hb : (pyStrip line).isEmpty
  · rw [step_blank s line hb]
    simp [opens01, hb]
  · rw [Bool.not_eq_true] at hb
    by_cases h01 : (ljust line RECORD_LENGTH).take 2 = ['0', '1']
    · rw [step_open s line hb h01]
      have hop : opens01 line = true := by simp [opens01, hb, h01]
      rw [hop]
      have hpc : (parse_line (ljust line RECORD_LENGTH) map01).isEmpty = false := by
        rw [parse_line_isEmpty]
        rfl
      by_cases hc : s.current_permit_data.isEmpty <;> simp [hc, hpc]
    · have hop : opens01 line = false := by simp [opens01, h01]
      rw [hop]
      obtain ⟨hperm, hempty, -⟩ := step_non01 s line hb h01
      rw [hperm, hempty]
      simp

lemma foldl_parent_count (lines : List (List Char)) (s : PState) :
    (lines.foldl step s).permits.length +
        (if (lines.foldl step s).current_permit_data.isEmpty then 0 else 1) =
      s.permits.length + (if s.current_permit_data.isEmpty then 0 else 1) +
        (lines.filter opens01).length := by
  induction lines generalizing s with
  | nil => simp
  | cons l t ih =>
    rw [List.foldl_cons, ih (step s l), step_parent_count s l, List.filter_cons]
    by_cases h : opens01 l
    · simp [h]
      try omega
    · simp [h]
      try omega

/-- C7: whatever the input, every parent that is opened is finalized
exactly once: the permits collection of a full run has exactly one entry
per parent-opening line, so in particular the parent still current at end
of input is finalized exactly once, with no duplicate and no loss. -/
theorem spec_C7_finalize_exactly_once (lines : List (List Char)) :
    (process_lines lines).permits.length = (lines.filter opens01).length := by
  unfold process_lines
  have h := foldl_parent_count lines initState
  by_cases hc : (lines.foldl step initState).current_permit_data.isEmpty
  · rw [if_neg (by simp [hc])]
    rw [if_pos hc] at h
    simpa [initState] using h
  · rw [if_pos (by simp [hc])]
    rw [if_neg hc] at h
    have h0 : initState.permits.length = 0 := rfl
    have h1 : (if initState.current_permit_data.isEmpty = true then 0 else 1) = 0 := rfl
    rw [h0, h1] at h
    simp
    omega

lemma countGet_bump (c : TagCounts) (k : List Char) :
    countGet (bump c k) k = countGet c k + 1 := by
  induction c with
  | nil => simp [bump, countGet]
  | cons p t ih =>
    obtain ⟨k', n⟩ := p
    by_cases h : k' = k
    · simp [bump, countGet, h]
    · simp [bump, countGet, h, ih]

/-- C6: a child-tag or merge-tag line arriving while no parent is current
changes nothing but the tag-occurrence diagnostics: no entity is added to
any collection, the (absent) parent state is untouched, and the line's tag
count still increments by one. -/
theorem spec_C6_orphan_dropped (s : PState) (t1 t2 : Char) (r : List Char)
    (hcur : s.current_permit_data = [])
    (htag : [t1, t2] ∈ [['0', '2'], ['0', '3'], ['0', '6'], ['0', '8'], ['1', '4'], ['1', '5']]) :
    step s (t1 :: t2 :: r) =
      { s with record_counts := bump s.record_counts [t1, t2] } ∧
    countGet (step s (t1 :: t2 :: r)).record_counts [t1, t2] =
      countGet s.record_counts [t1, t2] + 1 := by
  have hcEmpty : s.current_permit_data.isEmpty = true := by simp [hcur]
  simp only [List.mem_cons, List.not_mem_nil, or_false] at htag
  rcases htag with h | h | h | h | h | h
  all_goals simp only [List.cons.injEq, and_true] at h
  all_goals obtain ⟨rfl, rfl⟩ := h
  all_goals rw [step_skip_nocurrent s _ (pyStrip_cons_nonspace _ _ (by decide))
    (by rw [take_two_ljust]; decide) hcEmpty, take_two_ljust]
  all_goals exact ⟨rfl, countGet_bump _ _⟩

/-- Witness for C6: an orphan '03' line in the initial state. -/
theorem spec_C6_orphan_dropped_witness :
    step initState ('0' :: '3' :: []) =
      { initState with record_counts := bump initState.record_counts ['0', '3'] } ∧
    countGet (step initState ('0' :: '3' :: [])).record_counts ['0', '3'] =
      countGet initState.record_counts ['0', '3'] + 1 :=
  spec_C6_orphan_dropped initState '0' '3' [] rfl (by decide)

/-- C9: the registry returns a layout exactly for the seven known tags and
absent for every other tag; a non-blank line whose tag has no layout only
bumps the diagnostic tag count and leaves the parse state (current parent
and all three output collections) unchanged. -/
theorem spec_C9_layout_registry :
    (∀ t : List Char, (RECORD_MAPS t).isSome = true ↔
      t ∈ [['0', '1'], ['0', '2'], ['0', '3'], ['0', '6'], ['0', '8'], ['1', '4'], ['1', '5']]) ∧
    (∀ (s : PState) (line : List Char), (pyStrip line).isEmpty = false →
      RECORD_MAPS ((ljust line RECORD_LENGTH).take 2) = none →
      step s line =
        { s with record_counts := bump s.record_counts ((ljust line RECORD_LENGTH).take 2) }) := by
  constructor
  · intro t
    constructor
    · intro h
      unfold RECORD_MAPS at h
      split_ifs at h with h1 h2 h3 h4 h5 h6 h7 <;> simp_all
    · intro h
      simp only [List.mem_cons, List.not_mem_nil, or_false] at h
      rcases h with rfl | rfl | rfl | rfl | rfl | rfl | rfl
      · rfl
      · rfl
      · rfl
      · rfl
      · rfl
      · rfl
      · rfl
  · intro s line hb hm
    exact step_unknown s line hb hm

/-- Witness for C9: the unknown tag '99' only bumps its tag count. -/
theorem spec_C9_layout_registry_witness :
    step initState ('9' :: '9' :: []) =
      { initState with record_counts := bump initState.record_counts ((ljust ('9' :: '9' :: []) RECORD_LENGTH).take 2) } :=
  spec_C9_layout_registry.2 initState ('9' :: '9' :: []) (by decide) (by decide)

/-- C8: the current parent's DA_STATUS_NUMBER is set from the
parent-opening line at decode time (character positions 2-8 of the padded
line, per map01), and no subsequent non-parent-opening line (merge tags
'02', '14', '15', child tags '03', '06', '08', unknown tags, blank lines
are separate) ever changes it while the parent remains current. -/
theorem spec_C8_status_number_stable :
    (∀ (s : PState) (line : List Char),
        (pyStrip line).isEmpty = false →
        (ljust line RECORD_LENGTH).take 2 = ['0', '1'] →
        dictGet (step s line).current_permit_data "DA_STATUS_NUMBER" =
          some (pyStrip (pySlice (ljust line RECORD_LENGTH) 2 (2 + 7)))) ∧
    (∀ (s : PState) (line : List Char),
        (pyStrip line).isEmpty = false →
        (ljust line RECORD_LENGTH).take 2 ≠ ['0', '1'] →
        dictGet (step s line).current_permit_data "DA_STATUS_NUMBER" =
          dictGet s.current_permit_data "DA_STATUS_NUMBER") := by
  constructor
  · intro s line hb h01
    rw [step_open s line hb h01]
    simp [parse_line, map01, dictGet]
  · intro s line hb h01
    exact (step_non01 s line hb h01).2.2

/-- Witness for C8: a '02' merge line on a current parent with status
number "7" leaves the status number unchanged. -/
theorem spec_C8_status_number_stable_witness :
    dictGet (step ⟨[], [], [], [("DA_STATUS_NUMBER", ['7'])], []⟩
        ('0' :: '2' :: [])).current_permit_data "DA_STATUS_NUMBER" =
      dictGet [("DA_STATUS_NUMBER", ['7'])] "DA_STATUS_NUMBER" :=
  spec_C8_status_number_stable.2 ⟨[], [], [], [("DA_STATUS_NUMBER", ['7'])], []⟩
    ('0' :: '2' :: []) (by decide) (by decide)

/-- C10: only lines with tag '06' or '08' ever append a restriction
segment; an appended segment carries RESTRICTION_TYPE exactly "CANNED" for
tag '06' and exactly "FREE_FORM" for tag '08', along with the
PARENT_STATUS_NUMBER back-reference to the current parent's identity. -/
theorem spec_C10_restriction_discriminator :
    (∀ (s : PState) (line : List Char),
        (ljust line RECORD_LENGTH).take 2 ≠ ['0', '6'] →
        (ljust line RECORD_LENGTH).take 2 ≠ ['0', '8'] →
        (step s line).all_restrictions = s.all_restrictions) ∧
    (∀ (s : PState) (line : List Char),
        (pyStrip line).isEmpty = false →
        (ljust line RECORD_LENGTH).take 2 = ['0', '6'] →
        s.current_permit_data.isEmpty = false →
        ∃ rd, (step s line).all_restrictions = s.all_restrictions ++ [rd] ∧
          dictGet rd "RESTRICTION_TYPE" = some "CANNED".toList ∧
          dictGet rd "PARENT_STATUS_NUMBER" =
            some ((dictGet s.current_permit_data "DA_STATUS_NUMBER").getD [])) ∧
    (∀ (s : PState) (line : List Char),
        (pyStrip line).isEmpty = false →
        (ljust line RECORD_LENGTH).take 2 = ['0', '8'] →
        s.current_permit_data.isEmpty = false →
        ∃ rd, (step s line).all_restrictions = s.all_restrictions ++ [rd] ∧
          dictGet rd "RESTRICTION_TYPE" = some "FREE_FORM".toList ∧
          dictGet rd "PARENT_STATUS_NUMBER" =
            some ((dictGet s.current_permit_data "DA_STATUS_NUMBER").getD [])) := by
  refine ⟨?_, ?_, ?_⟩
  · intro s line h06 h08
    by_cases hb : (pyStrip line).isEmpty
    · rw [step_blank s line hb]
    · rw [Bool.not_eq_true] at hb
      by_cases h01 : (ljust line RECORD_LENGTH).take 2 = ['0', '1']
      · rw [step_open s line hb h01]
      · by_cases hc : s.current_permit_data.isEmpty
        · rw [step_skip_nocurrent s line hb h01 hc]
        · rw [Bool.not_eq_true] at hc
          by_cases h02 : (ljust line RECORD_LENGTH).take 2 = ['0', '2']
          · rw [step_merge02 s line hb h02 hc]
          by_cases h03 : (ljust line RECORD_LENGTH).take 2 = ['0', '3']
          · rw [step_child03 s line hb h03 hc]
          by_cases h14 : (ljust line RECORD_LENGTH).take 2 = ['1', '4']
          · rw [step_gis14 s line hb h14 hc]
          by_cases h15 : (ljust line RECORD_LENGTH).take 2 = ['1', '5']
          · rw [step_gis15 s line hb h15 hc]
          have hm : RECORD_MAPS ((ljust line RECORD_LENGTH).take 2) = none := by
            simp [RECORD_MAPS, h01, h02, h03, h06, h08, h14, h15]
          rw [step_unknown s line hb hm]
  · intro s line hb h06 hc
    rw [step_restr06 s line hb h06 hc]
    refine ⟨_, rfl, ?_, ?_⟩
    · exact dictGet_setItem_self _ _ _
    · rw [dictGet_setItem_ne _ _ _ _ (by decide)]
      exact dictGet_setItem_self _ _ _
  · intro s line hb h08 hc
    rw [step_restr08 s line hb h08 hc]
    refine ⟨_, rfl, ?_, ?_⟩
    · exact dictGet_setItem_self _ _ _
    · rw [dictGet_setItem_ne _ _ _ _ (by decide)]
      exact dictGet_setItem_self _ _ _

/-- Witness for C10: a '06' line on a current parent with status number
"7" appends one CANNED restriction back-referencing "7". -/
theorem spec_C10_restriction_discriminator_witness :
    ∃ rd, (step ⟨[], [], [], [("DA_STATUS_NUMBER", ['7'])], []⟩
        ('0' :: '6' :: [])).all_restrictions = [] ++ [rd] ∧
      dictGet rd "RESTRICTION_TYPE" = some "CANNED".toList ∧
      dictGet rd "PARENT_STATUS_NUMBER" =
        some ((dictGet [("DA_STATUS_NUMBER", ['7'])] "DA_STATUS_NUMBER").getD []) :=
  spec_C10_restriction_discriminator.2.1 ⟨[], [], [], [("DA_STATUS_NUMBER", ['7'])], []⟩
    ('0' :: '6' :: []) (by decide) (by decide) (by decide)



lemma permits_of_mk (a b c : List Dict) (d : Dict) (e : TagCounts) :
    (PState.mk a b c d e).permits = a := rfl

lemma fields_of_mk (a b c : List Dict) (d : Dict) (e : TagCounts) :
    (PState.mk a b c d e).all_fields = b := rfl

lemma restr_of_mk (a b c : List Dict) (d : Dict) (e : TagCounts) :
    (PState.mk a b c d e).all_restrictions = c := rfl

lemma current_of_mk (a b c : List Dict) (d : Dict) (e : TagCounts) :
    (PState.mk a b c d e).current_permit_data = d := rfl

lemma counts_of_mk (a b c : List Dict) (d : Dict) (e : TagCounts) :
    (PState.mk a b c d e).record_counts = e := rfl

/-- C5: on a parent-opening line, then a '02' merge line, then two '03'
child lines, then a second parent-opening line, the run finalizes the
first parent exactly once, carrying the fields merged from the '02' line,
and appends exactly two field segments, each stamped with the first
parent's DA_STATUS_NUMBER; no restriction is produced. -/
theorem spec_C5_scenario (r1 r2 r3 r4 r5 : List Char) :
    (process_lines [('0' :: '1' :: r1), ('0' :: '2' :: r2), ('0' :: '3' :: r3), ('0' :: '3' :: r4), ('0' :: '1' :: r5)]).permits =
      [(dictUpdate (parse_line (ljust ('0' :: '1' :: r1) RECORD_LENGTH) map01) (permit_master_update (ljust ('0' :: '2' :: r2) RECORD_LENGTH))), (parse_line (ljust ('0' :: '1' :: r5) RECORD_LENGTH) map01)] ∧
    (process_lines [('0' :: '1' :: r1), ('0' :: '2' :: r2), ('0' :: '3' :: r3), ('0' :: '3' :: r4), ('0' :: '1' :: r5)]).all_fields =
      [(setItem (parse_line (ljust ('0' :: '3' :: r3) RECORD_LENGTH) map03) "PARENT_STATUS_NUMBER" ((dictGet (parse_line (ljust ('0' :: '1' :: r1) RECORD_LENGTH) map01) "DA_STATUS_NUMBER").getD [])), (setItem (parse_line (ljust ('0' :: '3' :: r4) RECORD_LENGTH) map03) "PARENT_STATUS_NUMBER" ((dictGet (parse_line (ljust ('0' :: '1' :: r1) RECORD_LENGTH) map01) "DA_STATUS_NUMBER").getD []))] ∧
    (process_lines [('0' :: '1' :: r1), ('0' :: '2' :: r2), ('0' :: '3' :: r3), ('0' :: '3' :: r4), ('0' :: '1' :: r5)]).all_restrictions = [] ∧
    ∀ fd ∈ (process_lines [('0' :: '1' :: r1), ('0' :: '2' :: r2), ('0' :: '3' :: r3), ('0' :: '3' :: r4), ('0' :: '1' :: r5)]).all_fields,
      dictGet fd "PARENT_STATUS_NUMBER" = some ((dictGet (parse_line (ljust ('0' :: '1' :: r1) RECORD_LENGTH) map01) "DA_STATUS_NUMBER").getD []) := by
  have hb1 : (pyStrip ('0' :: '1' :: r1)).isEmpty = false := pyStrip_cons_nonspace _ _ (by decide)
  have hb2 : (pyStrip ('0' :: '2' :: r2)).isEmpty = false := pyStrip_cons_nonspace _ _ (by decide)
  have hb3 : (pyStrip ('0' :: '3' :: r3)).isEmpty = false := pyStrip_cons_nonspace _ _ (by decide)
  have hb4 : (pyStrip ('0' :: '3' :: r4)).isEmpty = false := pyStrip_cons_nonspace _ _ (by decide)
  have hb5 : (pyStrip ('0' :: '1' :: r5)).isEmpty = false := pyStrip_cons_nonspace _ _ (by decide)
  have hP1 : (parse_line (ljust ('0' :: '1' :: r1) RECORD_LENGTH) map01).isEmpty = false := by
    rw [parse_line_isEmpty]
    rfl
  have hP5 : (parse_line (ljust ('0' :: '1' :: r5) RECORD_LENGTH) map01).isEmpty = false := by
    rw [parse_line_isEmpty]
    rfl
  have e1 : step initState ('0' :: '1' :: r1) = (⟨[], [], [], (parse_line (ljust ('0' :: '1' :: r1) RECORD_LENGTH) map01), (bump [] ['0', '1'])⟩ : PState) := by
    rw [step_open initState _ hb1 (take_two_ljust _ _ _ _)]
    rfl
  have hc1 : ((⟨[], [], [], (parse_line (ljust ('0' :: '1' :: r1) RECORD_LENGTH) map01), (bump [] ['0', '1'])⟩ : PState)).current_permit_data.isEmpty = false := by
    rw [current_of_mk]
    exact hP1
  have e2 : step (⟨[], [], [], (parse_line (ljust ('0' :: '1' :: r1) RECORD_LENGTH) map01), (bump [] ['0', '1'])⟩ : PState) ('0' :: '2' :: r2) = (⟨[], [], [], (dictUpdate (parse_line (ljust ('0' :: '1' :: r1) RECORD_LENGTH) map01) (permit_master_update (ljust ('0' :: '2' :: r2) RECORD_LENGTH))), (bump (bump [] ['0', '1']) ['0', '2'])⟩ : PState) := by
    rw [step_merge02 _ _ hb2 (take_two_ljust _ _ _ _) hc1]
  have hc2 : ((⟨[], [], [], (dictUpdate (parse_line (ljust ('0' :: '1' :: r1) RECORD_LENGTH) map01) (permit_master_update (ljust ('0' :: '2' :: r2) RECORD_LENGTH))), (bump (bump [] ['0', '1']) ['0', '2'])⟩ : PState)).current_permit_data.isEmpty = false := by
    rw [current_of_mk, dictUpdate_isEmpty, hP1]
    rfl
  have hpid : dictGet (dictUpdate (parse_line (ljust ('0' :: '1' :: r1) RECORD_LENGTH) map01) (permit_master_update (ljust ('0' :: '2' :: r2) RECORD_LENGTH))) "DA_STATUS_NUMBER" = dictGet (parse_line (ljust ('0' :: '1' :: r1) RECORD_LENGTH) map01) "DA_STATUS_NUMBER" :=
    dictGet_dictUpdate_not_mem _ _ _ (status_notin_pmu _)
  have e3 : step (⟨[], [], [], (dictUpdate (parse_line (ljust ('0' :: '1' :: r1) RECORD_LENGTH) map01) (permit_master_update (ljust ('0' :: '2' :: r2) RECORD_LENGTH))), (bump (bump [] ['0', '1']) ['0', '2'])⟩ : PState) ('0' :: '3' :: r3) = (⟨[], [(setItem (parse_line (ljust ('0' :: '3' :: r3) RECORD_LENGTH) map03) "PARENT_STATUS_NUMBER" ((dictGet (parse_line (ljust ('0' :: '1' :: r1) RECORD_LENGTH) map01) "DA_STATUS_NUMBER").getD []))], [], (dictUpdate (parse_line (ljust ('0' :: '1' :: r1) RECORD_LENGTH) map01) (permit_master_update (ljust ('0' :: '2' :: r2) RECORD_LENGTH))), (bump (bump (bump [] ['0', '1']) ['0', '2']) ['0', '3'])⟩ : PState) := by
    rw [step_child03 _ _ hb3 (take_two_ljust _ _ _ _) hc2]
    simp only [permits_of_mk, fields_of_mk, restr_of_mk, current_of_mk, counts_of_mk, List.nil_append]
    rw [hpid]
  have hc3 : ((⟨[], [(setItem (parse_line (ljust ('0' :: '3' :: r3) RECORD_LENGTH) map03) "PARENT_STATUS_NUMBER" ((dictGet (parse_line (ljust ('0' :: '1' :: r1) RECORD_LENGTH) map01) "DA_STATUS_NUMBER").getD []))], [], (dictUpdate (parse_line (ljust ('0' :: '1' :: r1) RECORD_LENGTH) map01) (permit_master_update (ljust ('0' :: '2' :: r2) RECORD_LENGTH))), (bump (bump (bump [] ['0', '1']) ['0', '2']) ['0', '3'])⟩ : PState)).current_permit_data.isEmpty = false := by
    rw [current_of_mk, dictUpdate_isEmpty, hP1]
    rfl
  have e4 : step (⟨[], [(setItem (parse_line (ljust ('0' :: '3' :: r3) RECORD_LENGTH) map03) "PARENT_STATUS_NUMBER" ((dictGet (parse_line (ljust ('0' :: '1' :: r1) RECORD_LENGTH) map01) "DA_STATUS_NUMBER").getD []))], [], (dictUpdate (parse_line (ljust ('0' :: '1' :: r1) RECORD_LENGTH) map01) (permit_master_update (ljust ('0' :: '2' :: r2) RECORD_LENGTH))), (bump (bump (bump [] ['0', '1']) ['0', '2']) ['0', '3'])⟩ : PState) ('0' :: '3' :: r4) = (⟨[], [(setItem (parse_line (ljust ('0' :: '3' :: r3) RECORD_LENGTH) map03) "PARENT_STATUS_NUMBER" ((dictGet (parse_line (ljust ('0' :: '1' :: r1) RECORD_LENGTH) map01) "DA_STATUS_NUMBER").getD [])), (setItem (parse_line (ljust ('0' :: '3' :: r4) RECORD_LENGTH) map03) "PARENT_STATUS_NUMBER" ((dictGet (parse_line (ljust ('0' :: '1' :: r1) RECORD_LENGTH) map01) "DA_STATUS_NUMBER").getD []))], [], (dictUpdate (parse_line (ljust ('0' :: '1' :: r1) RECORD_LENGTH) map01) (permit_master_update (ljust ('0' :: '2' :: r2) RECORD_LENGTH))), (bump (bump (bump (bump [] ['0', '1']) ['0', '2']) ['0', '3']) ['0', '3'])⟩ : PState) := by
    rw [step_child03 _ _ hb4 (take_two_ljust _ _ _ _) hc3]
    simp only [permits_of_mk, fields_of_mk, restr_of_mk, current_of_mk, counts_of_mk, List.cons_append, List.nil_append]
    rw [hpid]
  have hc4 : ((⟨[], [(setItem (parse_line (ljust ('0' :: '3' :: r3) RECORD_LENGTH) map03) "PARENT_STATUS_NUMBER" ((dictGet (parse_line (ljust ('0' :: '1' :: r1) RECORD_LENGTH) map01) "DA_STATUS_NUMBER").getD [])), (setItem (parse_line (ljust ('0' :: '3' :: r4) RECORD_LENGTH) map03) "PARENT_STATUS_NUMBER" ((dictGet (parse_line (ljust ('0' :: '1' :: r1) RECORD_LENGTH) map01) "DA_STATUS_NUMBER").getD []))], [], (dictUpdate (parse_line (ljust ('0' :: '1' :: r1) RECORD_LENGTH) map01) (permit_master_update (ljust ('0' :: '2' :: r2) RECORD_LENGTH))), (bump (bump (bump (bump [] ['0', '1']) ['0', '2']) ['0', '3']) ['0', '3'])⟩ : PState)).current_permit_data.isEmpty = false := by
    rw [current_of_mk, dictUpdate_isEmpty, hP1]
    rfl
  have e5 : step (⟨[], [(setItem (parse_line (ljust ('0' :: '3' :: r3) RECORD_LENGTH) map03) "PARENT_STATUS_NUMBER" ((dictGet (parse_line (ljust ('0' :: '1' :: r1) RECORD_LENGTH) map01) "DA_STATUS_NUMBER").getD [])), (setItem (parse_line (ljust ('0' :: '3' :: r4) RECORD_LENGTH) map03) "PARENT_STATUS_NUMBER" ((dictGet (parse_line (ljust ('0' :: '1' :: r1) RECORD_LENGTH) map01) "DA_STATUS_NUMBER").getD []))], [], (dictUpdate (parse_line (ljust ('0' :: '1' :: r1) RECORD_LENGTH) map01) (permit_master_update (ljust ('0' :: '2' :: r2) RECORD_LENGTH))), (bump (bump (bump (bump [] ['0', '1']) ['0', '2']) ['0', '3']) ['0', '3'])⟩ : PState) ('0' :: '1' :: r5) = (⟨[(dictUpdate (parse_line (ljust ('0' :: '1' :: r1) RECORD_LENGTH) map01) (permit_master_update (ljust ('0' :: '2' :: r2) RECORD_LENGTH)))], [(setItem (parse_line (ljust ('0' :: '3' :: r3) RECORD_LENGTH) map03) "PARENT_STATUS_NUMBER" ((dictGet (parse_line (ljust ('0' :: '1' :: r1) RECORD_LENGTH) map01) "DA_STATUS_NUMBER").getD [])), (setItem (parse_line (ljust ('0' :: '3' :: r4) RECORD_LENGTH) map03) "PARENT_STATUS_NUMBER" ((dictGet (parse_line (ljust ('0' :: '1' :: r1) RECORD_LENGTH) map01) "DA_STATUS_NUMBER").getD []))], [], (parse_line (ljust ('0' :: '1' :: r5) RECORD_LENGTH) map01), (bump (bump (bump (bump (bump [] ['0', '1']) ['0', '2']) ['0', '3']) ['0', '3']) ['0', '1'])⟩ : PState) := by
    rw [step_open _ _ hb5 (take_two_ljust _ _ _ _)]
    rw [if_neg (by rw [hc4]; simp)]
    simp only [permits_of_mk, fields_of_mk, restr_of_mk, current_of_mk, counts_of_mk,
      List.nil_append]
  unfold process_lines
  simp only [List.foldl_cons, List.foldl_nil]
  rw [e1, e2, e3, e4, e5]
  rw [if_pos (by rw [current_of_mk, hP5]; rfl)]
  simp only [permits_of_mk, fields_of_mk, restr_of_mk, current_of_mk, counts_of_mk,
    List.cons_append, List.nil_append]
  refine ⟨trivial, trivial, trivial, ?_⟩
  intro fd hfd
  simp only [List.mem_cons, List.not_mem_nil, or_false] at hfd
  rcases hfd with rfl | rfl
  · exact dictGet_setItem_self _ _ _
  · exact dictGet_setItem_self _ _ _
